import Mathlib

/-!
Shallow embedding of the remote-memory introspection engine of
`taskinator-communicator` (`src/game.rs`, `src/error.rs`).

The foreign process and the OS read primitive `ReadProcessMemory` are modelled
by an oracle `ForeignProc`: `mem` is the foreign byte memory, `readOk addr len`
is whether the primitive reports success for a read call of `len` bytes at
`addr`, `bytesCopied addr len` is the byte count it reports copied, `junk` is
the prior (uninitialized) content of the destination buffer, and `lastError`
is the value `GetLastError` returns afterwards.  Each Rust function is
translated hop for hop; `u32` arithmetic is `Nat` with explicit `% 2^32`.
`MaybeUninit::assume_init` on an out-of-range `repr(u32)` enum discriminant is
undefined behavior in the source; the embedding reifies that outcome as the
explicit marker `Res.ub`, distinct from every ordinary error.
-/

/-- Wrapping 32-bit addition, matching release-mode `u32` addition in the source. -/
def add32 (a b : Nat) : Nat := (a + b) % 4294967296

/-- Oracle for the foreign process and the `ReadProcessMemory` primitive. -/
structure ForeignProc where
  mem : Nat → Nat
  junk : Nat → Nat
  readOk : Nat → Nat → Bool
  bytesCopied : Nat → Nat → Nat
  lastError : Nat

/-- Bytes delivered into the destination buffer by a `ReadProcessMemory` call:
positions below the reported copied count hold foreign memory, the rest keep
the buffer's uninitialized contents. -/
def ForeignProc.readBytes (p : ForeignProc) (addr len : Nat) : List Nat :=
  (List.range len).map (fun i =>
    if i < p.bytesCopied addr len then p.mem (addr + i) % 256 else p.junk i % 256)

/-- Little-endian `u32` assembled from four bytes of a buffer at a given offset. -/
def u32FromBytesAt (bs : List Nat) (off : Nat) : Nat :=
  bs.getD off 0 + 256 * bs.getD (off + 1) 0 + 65536 * bs.getD (off + 2) 0 +
    16777216 * bs.getD (off + 3) 0

/-- The `u32` a four-byte read call delivers (including junk on a short copy). -/
def ForeignProc.readU32 (p : ForeignProc) (addr : Nat) : Nat :=
  u32FromBytesAt (p.readBytes addr 4) 0

/-- Reinterpret a `u32` as a signed `i32` (two's complement), for `Player.colour`. -/
def toInt32 (n : Nat) : Int :=
  if n < 2147483648 then (n : Int) else (n : Int) - 4294967296

/-- The error enum of `src/error.rs`, plus the boxed `FromUtf16Error` that
`Game::read_string` propagates through `Result<T, Box<dyn Error>>`. -/
inductive Error where
  | EnumModuleError : Nat → Error
  | MissingGaError : Error
  | ReadError : Nat → Nat → String → Error
  | Utf16Error : Error
deriving DecidableEq

/-- Outcome of an embedded operation: success, a returned error, or the
undefined-behavior marker for `assume_init` on an invalid enum discriminant. -/
inductive Res (α : Type) where
  | ok : α → Res α
  | err : Error → Res α
  | ub : Res α
deriving DecidableEq

/-- Sequencing matching Rust's postfix question-mark operator. -/
def Res.bind : Res α → (α → Res β) → Res β
  | .ok a, f => f a
  | .err e, _ => .err e
  | .ub, _ => .ub

/-- The `InternalState` enum (`repr(u32)`, discriminants 0..3). -/
inductive InternalState where
  | NotJoined : InternalState
  | Joined : InternalState
  | Started : InternalState
  | Ended : InternalState
deriving DecidableEq

/-- Variant of `InternalState` denoted by a raw discriminant, if any. -/
def decodeInternalState (n : Nat) : Option InternalState :=
  if n = 0 then some InternalState.NotJoined
  else if n = 1 then some InternalState.Joined
  else if n = 2 then some InternalState.Started
  else if n = 3 then some InternalState.Ended
  else none

/-- The `MeetingState` enum (`repr(u32)`, discriminants 0..4). -/
inductive MeetingState where
  | Discussion : MeetingState
  | NotVoted : MeetingState
  | Voted : MeetingState
  | Results : MeetingState
  | Proceeding : MeetingState
deriving DecidableEq

/-- Variant of `MeetingState` denoted by a raw discriminant, if any. -/
def decodeMeetingState (n : Nat) : Option MeetingState :=
  if n = 0 then some MeetingState.Discussion
  else if n = 1 then some MeetingState.NotVoted
  else if n = 2 then some MeetingState.Voted
  else if n = 3 then some MeetingState.Results
  else if n = 4 then some MeetingState.Proceeding
  else none

/-- The `Player` record decoded by `Game::read_player`. -/
structure Player where
  id : Nat
  name : String
  colour : Int
  hat : Nat
  pet : Nat
  skin : Nat
  disconnected : Bool
  tasks_addr : Nat
  impostor : Bool
  dead : Bool
  game_object_addr : Nat
deriving DecidableEq

/-- The `State` snapshot enum returned by `Game::state`. -/
inductive State where
  | Menu : State
  | Lobby : List Player → State
  | InGame : MeetingState → List Player → Nat → Nat → State
deriving DecidableEq

/-- The `Game` session: process handle and `GameAssembly.dll` base address. -/
structure Game where
  handle : Nat
  ga_addr : Nat
deriving DecidableEq

/-- The `InstancedClass` trait constants as a descriptor triple. -/
structure InstancedClass where
  CLASS_OFFSET : Nat
  STATICS_OFFSET : Nat
  INSTANCE_OFFSET : Nat
deriving DecidableEq

/-- Descriptor of `ClientState` (class offset 0x028E98F4, AmongUsClient). -/
def ClientState : InstancedClass := ⟨0x028E98F4, 0x5C, 0x00⟩

/-- Descriptor of `PlayerManager` (class offset 0x0290551C, GameData). -/
def PlayerManager : InstancedClass := ⟨0x0290551C, 0x5C, 0x00⟩

/-- Descriptor of `MeetingScreen` (class offset 0x028E25A8, MeetingHud). -/
def MeetingScreen : InstancedClass := ⟨0x028E25A8, 0x5C, 0x00⟩

/-- `Game::read_game_usize`: a four-byte read; only the success flag is
checked, and the delivered buffer is interpreted as the value. -/
def Game.read_game_usize (p : ForeignProc) (address : Nat) : Res Nat :=
  if p.readOk address 4 = false then
    Res.err (Error.ReadError p.lastError (p.bytesCopied address 4) "pointer")
  else
    Res.ok (p.readU32 address)

/-- `Game::get_instance_addr`: the three-hop pointer chain
module base → class pointer → statics block → instance pointer. -/
def Game.get_instance_addr (p : ForeignProc) (g : Game) (T : InstancedClass) : Res Nat :=
  Res.bind (Game.read_game_usize p (add32 g.ga_addr T.CLASS_OFFSET)) (fun class_addr =>
  Res.bind (Game.read_game_usize p (add32 class_addr T.STATICS_OFFSET)) (fun statics_addr =>
  Res.bind (Game.read_game_usize p (add32 statics_addr T.INSTANCE_OFFSET)) (fun instance_addr =>
  Res.ok instance_addr)))

/-- `Game::read_internal_state`: four bytes at +0x70 of the client-state
object, reinterpreted as `InternalState` by `assume_init` (out of range is
undefined behavior, `Res.ub`); only the success flag is checked. -/
def Game.read_internal_state (p : ForeignProc) (client_state_addr : Nat) : Res InternalState :=
  let a := add32 client_state_addr 0x70
  if p.readOk a 4 = false then
    Res.err (Error.ReadError p.lastError (p.bytesCopied a 4) "internal state")
  else
    match decodeInternalState (p.readU32 a) with
    | some s => Res.ok s
    | none => Res.ub

/-- `Game::read_meeting_progress`: four bytes at +0x84 of the meeting-screen
object, reinterpreted as `MeetingState` by `assume_init` (out of range is
undefined behavior, `Res.ub`); only the success flag is checked. -/
def Game.read_meeting_progress (p : ForeignProc) (meeting_screen_addr : Nat) : Res MeetingState :=
  let a := add32 meeting_screen_addr 0x84
  if p.readOk a 4 = false then
    Res.err (Error.ReadError p.lastError (p.bytesCopied a 4) "meeting state")
  else
    match decodeMeetingState (p.readU32 a) with
    | some s => Res.ok s
    | none => Res.ub

/-- `Game::read_task_overview`: eight bytes at +0x28 of the player manager,
as the pair (tasks total, tasks completed); only the success flag is checked. -/
def Game.read_task_overview (p : ForeignProc) (player_manager_addr : Nat) : Res (Nat × Nat) :=
  let a := add32 player_manager_addr 0x28
  if p.readOk a 8 = false then
    Res.err (Error.ReadError p.lastError (p.bytesCopied a 8) "task overview")
  else
    let bs := p.readBytes a 8
    Res.ok (u32FromBytesAt bs 0, u32FromBytesAt bs 4)

/-- UTF-16 decoding of a code-unit sequence, as `String::from_utf16`:
basic-plane units stand alone, a high surrogate must pair with a following
low surrogate, anything else fails. -/
def utf16DecodeAux : List Nat → Option (List Char)
  | [] => some []
  | u :: [] =>
    if u < 0xD800 ∨ (0xE000 ≤ u ∧ u < 0x10000) then some [Char.ofNat u] else none
  | u :: v :: rest =>
    if u < 0xD800 ∨ (0xE000 ≤ u ∧ u < 0x10000) then
      match utf16DecodeAux (v :: rest) with
      | some cs => some (Char.ofNat u :: cs)
      | none => none
    else if 0xD800 ≤ u ∧ u < 0xDC00 ∧ 0xDC00 ≤ v ∧ v < 0xE000 then
      match utf16DecodeAux rest with
      | some cs => some (Char.ofNat (65536 + (u - 0xD800) * 1024 + (v - 0xDC00)) :: cs)
      | none => none
    else none

/-- UTF-16 decoding to a host string, `none` on an invalid sequence. -/
def utf16Decode (units : List Nat) : Option String :=
  match utf16DecodeAux units with
  | some cs => some (String.mk cs)
  | none => none

/-- `Game::read_string`: length prefix at +0x08, then `length * 2` payload
bytes at +0x0C; fails unless the reported copied count, halved, equals the
length; an invalid UTF-16 payload is a distinct decode failure. -/
def Game.read_string (p : ForeignProc) (address : Nat) : Res String :=
  Res.bind (Game.read_game_usize p (add32 address 8)) (fun str_len =>
    let a := add32 address 12
    let c := p.bytesCopied a (str_len * 2)
    if p.readOk a (str_len * 2) = false ∨ ¬ c / 2 = str_len then
      Res.err (Error.ReadError p.lastError c "string")
    else
      let bs := p.readBytes a (str_len * 2)
      let units := (List.range str_len).map
        (fun i => bs.getD (2 * i) 0 + 256 * bs.getD (2 * i + 1) 0)
      match utf16Decode units with
      | some s => Res.ok s
      | none => Res.err Error.Utf16Error)

/-- `Game::read_player`: 44 bytes at +8 (skipping the klass/monitor header),
failing unless the call succeeds and exactly 44 bytes are reported copied,
then field extraction and the name-string read. -/
def Game.read_player (p : ForeignProc) (player_addr : Nat) : Res Player :=
  let a := add32 player_addr 8
  let c := p.bytesCopied a 44
  if p.readOk a 44 = false ∨ ¬ c = 44 then
    Res.err (Error.ReadError p.lastError c "raw player")
  else
    let bs := p.readBytes a 44
    Res.bind (Game.read_string p (u32FromBytesAt bs 4)) (fun name =>
      Res.ok ⟨bs.getD 0 0, name, toInt32 (u32FromBytesAt bs 12), u32FromBytesAt bs 16,
        u32FromBytesAt bs 20, u32FromBytesAt bs 24, bs.getD 28 0 != 0,
        u32FromBytesAt bs 32, bs.getD 36 0 != 0, bs.getD 37 0 != 0,
        u32FromBytesAt bs 40⟩)

/-- The element loop of `Game::read_players`: one pointer read and one player
record read per index, aborting on the first failure; runs exactly the
decoded count many times. -/
def Game.read_players_loop (p : ForeignProc) (first_player_addr : Nat) :
    Nat → Nat → Res (List Player)
  | _, 0 => Res.ok []
  | idx, fuel + 1 =>
    Res.bind (Game.read_game_usize p (add32 first_player_addr (idx * 4))) (fun player_addr =>
    Res.bind (Game.read_player p player_addr) (fun pl =>
    Res.bind (Game.read_players_loop p first_player_addr (idx + 1) fuel) (fun rest =>
    Res.ok (pl :: rest))))

/-- `Game::read_players`: backing-list pointer at +0x24, element count at
+0x0C (success flag only), first-element pointer at +0x08 plus 0x10, then the
element loop; the count is used as read with no sanity bound. -/
def Game.read_players (p : ForeignProc) (player_manager_addr : Nat) : Res (List Player) :=
  Res.bind (Game.read_game_usize p (add32 player_manager_addr 0x24)) (fun player_list_addr =>
    let sa := add32 player_list_addr 0xC
    if p.readOk sa 4 = false then
      Res.err (Error.ReadError p.lastError (p.bytesCopied sa 4) "player list size")
    else
      let player_count := p.readU32 sa
      Res.bind (Game.read_game_usize p (add32 player_list_addr 8)) (fun fp =>
        Game.read_players_loop p (add32 fp 0x10) 0 player_count))

/-- `Game::state`: classify the phase from the client-state object and build
the matching snapshot variant. -/
def Game.state (p : ForeignProc) (g : Game) : Res State :=
  Res.bind (Game.get_instance_addr p g ClientState) (fun client_state_addr =>
  Res.bind (Game.read_internal_state p client_state_addr) (fun internal_state =>
  match internal_state with
  | InternalState.NotJoined => Res.ok State.Menu
  | InternalState.Joined =>
    Res.bind (Game.get_instance_addr p g PlayerManager) (fun pm =>
    Res.bind (Game.read_players p pm) (fun players =>
    Res.ok (State.Lobby players)))
  | InternalState.Ended =>
    Res.bind (Game.get_instance_addr p g PlayerManager) (fun pm =>
    Res.bind (Game.read_players p pm) (fun players =>
    Res.ok (State.Lobby players)))
  | InternalState.Started =>
    Res.bind (Game.get_instance_addr p g PlayerManager) (fun pm =>
    Res.bind (Game.read_task_overview p pm) (fun tasks =>
    Res.bind (Game.read_players p pm) (fun players =>
    Res.bind (Game.get_instance_addr p g MeetingScreen) (fun meeting_screen_addr =>
    Res.bind (if ¬ meeting_screen_addr = 0 then Game.read_meeting_progress p meeting_screen_addr
              else Res.ok MeetingState.Proceeding) (fun meeting =>
    Res.ok (State.InGame meeting players tasks.2 tasks.1))))))))

/-- Oracle for the module-enumeration primitives used by `Game::from_pid`:
the opened handle, whether `EnumProcessModulesEx` reports success, the full
loaded-module handle list, the uninitialized buffer entries past the 128
written ones, the `GetModuleBaseNameW` result per handle (UTF-16 units,
already truncated to the 64-unit buffer), and `GetLastError`. -/
structure WinSystem where
  openedHandle : Nat
  enumOk : Bool
  modules : List Nat
  junkModule : Nat → Nat
  baseName : Nat → List Nat
  lastError : Nat

/-- The fixed module buffer capacity in `Game::from_pid`. -/
def MAX_MODULE_COUNT : Nat := 128

/-- The module handles the search in `Game::from_pid` iterates over:
`EnumProcessModulesEx` writes at most 128 entries into the fixed buffer, but
`set_len` uses the full needed count, so entries past 128 are the buffer's
uninitialized contents. -/
def examinedModules (sys : WinSystem) : List Nat :=
  (List.range sys.modules.length).map (fun i =>
    if i < MAX_MODULE_COUNT then sys.modules.getD i 0 else sys.junkModule i)

/-- The per-module test of the `find_map` in `Game::from_pid`: the base name
must decode as UTF-16 (an undecodable name is a non-match via `.ok()?`) and
equal `GameAssembly.dll`. -/
def isGameAssembly (sys : WinSystem) (hm : Nat) : Bool :=
  match utf16Decode (sys.baseName hm) with
  | some s => decide (s = "GameAssembly.dll")
  | none => false

/-- `Game::from_pid`: enumerate modules into the fixed 128-entry buffer, fail
on an enumeration error, search for `GameAssembly.dll`, and build the session
from the first match (handle cast kept abstract, address cast to `u32`). -/
def Game.from_pid (sys : WinSystem) : Res Game :=
  if sys.enumOk = false then Res.err (Error.EnumModuleError sys.lastError)
  else
    match (examinedModules sys).find? (isGameAssembly sys) with
    | some hm => Res.ok ⟨sys.openedHandle, hm % 4294967296⟩
    | none => Res.err Error.MissingGaError

/-- Little-endian byte `i` of a 32-bit value, for building synthetic memories. -/
def bytesOfU32 (v i : Nat) : Nat := v / 256 ^ i % 256

/-- Synthetic byte memory given by a list of (address, 32-bit value) entries
(earlier entries win); addresses outside every entry hold zero. -/
def memOfEntries : List (Nat × Nat) → Nat → Nat
  | [], _ => 0
  | e :: rest, a =>
    if e.1 ≤ a ∧ a < e.1 + 4 then bytesOfU32 e.2 (a - e.1) else memOfEntries rest a

/-- A foreign process whose reads all succeed in full, over a given memory. -/
def okProc (mem : Nat → Nat) : ForeignProc :=
  ⟨mem, fun _ => 0, fun _ _ => true, fun _ len => len, 0⟩

/-- Synthetic memory of an in-progress match: client-state chain to 0x3000
with phase Started, player-manager chain to 0x6000 with 10 total and 3
completed tasks and an empty player list at 0x7000, meeting-screen chain
resolving to the zero sentinel. -/
def entriesStarted : List (Nat × Nat) :=
  [(0x028E98F4, 0x1000), (0x105C, 0x2000), (0x2000, 0x3000), (0x3070, 2),
   (0x0290551C, 0x4000), (0x405C, 0x5000), (0x5000, 0x6000),
   (0x6028, 10), (0x602C, 3),
   (0x6024, 0x7000), (0x700C, 0), (0x7008, 0x8000),
   (0x028E25A8, 0x9000), (0x905C, 0xA000), (0xA000, 0)]

/-- The Started scenario; reads at the would-be meeting discriminant address
(0 + 0x84) are made to fail, so a successful poll shows that address is never
read when the meeting-screen sentinel is zero. -/
def procStarted : ForeignProc :=
  ⟨memOfEntries entriesStarted, fun _ => 0, fun a _ => ! (a == 132), fun _ len => len, 0⟩

/-- The Started scenario with phase overridden to Joined. -/
def procLobby : ForeignProc := okProc (memOfEntries ((0x3070, 1) :: entriesStarted))

/-- The Started scenario with phase overridden to Ended. -/
def procEnded : ForeignProc := okProc (memOfEntries ((0x3070, 3) :: entriesStarted))

/-- All-zero memory: every chain resolves to 0 and the phase reads NotJoined. -/
def procMenu : ForeignProc := okProc (fun _ => 0)

/-- The Started scenario with a nonzero meeting screen at 0xB000 whose
discriminant at +0x84 is 0 (Discussion). -/
def procMeetingDisc : ForeignProc :=
  okProc (memOfEntries ((0xA000, 0xB000) :: (0xB084, 0) :: entriesStarted))

/-- The Started scenario with a nonzero meeting screen whose discriminant at
+0x84 is the out-of-range value 5. -/
def procUbMeeting : ForeignProc :=
  okProc (memOfEntries ((0xA000, 0xB000) :: (0xB084, 5) :: entriesStarted))

/-- The Started scenario with the client phase overridden to the out-of-range
discriminant 4. -/
def procUbPhase : ForeignProc := okProc (memOfEntries ((0x3070, 4) :: entriesStarted))

/-- A session at module base 0. -/
def gameW : Game := ⟨77, 0⟩

/-- A second session value with the same handle and module base as `gameW`. -/
def gameW2 : Game := ⟨77, 0⟩

/-- The Started memory, but the first pointer hop of the client-state chain
(address 0x028E98F4) fails. -/
def procHop1 : ForeignProc :=
  ⟨memOfEntries entriesStarted, fun _ => 0, fun a _ => ! (a == 0x028E98F4),
   fun a len => if a == 0x028E98F4 then 0 else len, 0⟩

/-- The Started memory, but the second pointer hop of the client-state chain
(address 0x1000 + 0x5C) fails. -/
def procHop2 : ForeignProc :=
  ⟨memOfEntries entriesStarted, fun _ => 0, fun a _ => ! (a == 0x105C),
   fun a len => if a == 0x105C then 0 else len, 0⟩

/-- A process whose read calls all report success but copy zero bytes,
leaving the destination buffer holding its prior 0xFF bytes. -/
def procPartial : ForeignProc := ⟨fun _ => 0, fun _ => 255, fun _ _ => true, fun _ _ => 0, 0⟩

/-- Zero memory (every string length prefix reads 0), but any zero-byte read
call reports failure. -/
def procZeroStr : ForeignProc := ⟨fun _ => 0, fun _ => 0, fun _ len => ! (len == 0), fun _ len => len, 0⟩

/-- A player manager at 0x6000 whose list count word holds 0xFFFFFFFF; the
read of element 0 (address 0x8010) fails. -/
def procHuge : ForeignProc :=
  ⟨memOfEntries [(0x6024, 0x7000), (0x700C, 4294967295), (0x7008, 0x8000)], fun _ => 0,
   fun a _ => ! (a == 0x8010), fun a len => if a == 0x8010 then 0 else len, 0⟩

/-- UTF-16 code units of the string GameAssembly.dll. -/
def gaUnits : List Nat := [71, 97, 109, 101, 65, 115, 115, 101, 109, 98, 108, 121, 46, 100, 108, 108]

/-- A process with 129 loaded modules (handles 1000..1128): the 129th,
handle 1128, is named GameAssembly.dll, every other one is named a, and the
uninitialized buffer entries read as the junk handle 5555 (also not named
GameAssembly.dll). -/
def sysTrunc : WinSystem :=
  ⟨40, true, (List.range 129).map (fun i => 1000 + i), fun _ => 5555,
   fun hm => if hm == 1128 then gaUnits else [97], 0⟩

/-- Two modules: handle 1 has an undecodable base name (an unpaired high
surrogate), handle 2 is named GameAssembly.dll. -/
def sysSkip : WinSystem :=
  ⟨40, true, [1, 2], fun _ => 0,
   fun hm => if hm == 1 then [55296] else if hm == 2 then gaUnits else [], 0⟩

/-- One module whose base name is undecodable; no module matches. -/
def sysNoGa : WinSystem := ⟨40, true, [1], fun _ => 0, fun _ => [55296], 0⟩


/-- C1: the claim that an out-of-range `InternalPhase` or `MeetingPhase`
discriminant always fails with an `InvalidDiscriminant` decode error is
refuted by the code: `read_internal_state` and `read_meeting_progress`
reinterpret the raw four bytes straight into the enum via
`MaybeUninit::assume_init` with no range check, so the out-of-range meeting
discriminant 5 (and client phase 4) is undefined behavior (`Res.ub`), not an
error — indeed the error type has no `InvalidDiscriminant` variant at all. -/
theorem c1_invalid_discriminant_is_ub :
    procUbMeeting.readU32 (add32 0xB000 0x84) = 5
    ∧ Game.read_meeting_progress procUbMeeting 0xB000 = Res.ub
    ∧ Game.state procUbMeeting gameW = Res.ub
    ∧ procUbPhase.readU32 (add32 0x3000 0x70) = 4
    ∧ Game.read_internal_state procUbPhase 0x3000 = Res.ub
    ∧ Game.state procUbPhase gameW = Res.ub := by
  refine ⟨by decide, by decide, by decide, by decide, by decide, by decide⟩

/-- C2: the snapshot variant is selected solely by the `InternalPhase` read
from the client-state object: NotJoined yields Menu, Joined and Ended both
yield Lobby with the players decoded from the player manager, and Started
yields InGame with the meeting phase, players and the two task counters. -/
theorem c2_state_variant_selection :
  ∀ (p : ForeignProc) (g : Game) (csa : Nat),
    Game.get_instance_addr p g ClientState = Res.ok csa →
    ((Game.read_internal_state p csa = Res.ok InternalState.NotJoined →
        Game.state p g = Res.ok State.Menu)
     ∧ (∀ pm ps, Game.read_internal_state p csa = Res.ok InternalState.Joined →
          Game.get_instance_addr p g PlayerManager = Res.ok pm →
          Game.read_players p pm = Res.ok ps →
          Game.state p g = Res.ok (State.Lobby ps))
     ∧ (∀ pm ps, Game.read_internal_state p csa = Res.ok InternalState.Ended →
          Game.get_instance_addr p g PlayerManager = Res.ok pm →
          Game.read_players p pm = Res.ok ps →
          Game.state p g = Res.ok (State.Lobby ps))
     ∧ (∀ pm tt tc ps msa m,
          Game.read_internal_state p csa = Res.ok InternalState.Started →
          Game.get_instance_addr p g PlayerManager = Res.ok pm →
          Game.read_task_overview p pm = Res.ok (tt, tc) →
          Game.read_players p pm = Res.ok ps →
          Game.get_instance_addr p g MeetingScreen = Res.ok msa →
          (if msa = 0 then Res.ok MeetingState.Proceeding
           else Game.read_meeting_progress p msa) = Res.ok m →
          Game.state p g = Res.ok (State.InGame m ps tc tt))) := by
  intro p g csa h
  refine ⟨?_, ?_, ?_, ?_⟩
  · intro h0
    simp [Game.state, h, h0, Res.bind]
  · intro pm ps h0 h1 h2
    simp [Game.state, h, h0, h1, h2, Res.bind]
  · intro pm ps h0 h1 h2
    simp [Game.state, h, h0, h1, h2, Res.bind]
  · intro pm tt tc ps msa m h0 h1 h2 h3 h4 h5
    simp [Game.state, h, h0, h1, h2, h3, h4, h5, Res.bind]

/-- C2 witness: on the four synthetic memories the poll returns Menu, the
two Lobby snapshots, and the InGame snapshot with 3 of 10 tasks done. -/
theorem c2_state_variant_selection_witness :
    Game.state procMenu gameW = Res.ok State.Menu
    ∧ Game.state procLobby gameW = Res.ok (State.Lobby [])
    ∧ Game.state procEnded gameW = Res.ok (State.Lobby [])
    ∧ Game.state procStarted gameW
        = Res.ok (State.InGame MeetingState.Proceeding [] 3 10) := by
  refine ⟨?_, ?_, ?_, ?_⟩
  · exact (c2_state_variant_selection procMenu gameW 0 (by decide)).1 (by decide)
  · exact (c2_state_variant_selection procLobby gameW 0x3000 (by decide)).2.1
      0x6000 [] (by decide) (by decide) (by decide)
  · exact (c2_state_variant_selection procEnded gameW 0x3000 (by decide)).2.2.1
      0x6000 [] (by decide) (by decide) (by decide)
  · exact (c2_state_variant_selection procStarted gameW 0x3000 (by decide)).2.2.2
      0x6000 10 3 [] 0 MeetingState.Proceeding
      (by decide) (by decide) (by decide) (by decide) (by decide) (by decide)

set_option maxRecDepth 8000 in
/-- C3: the claim that module enumeration requests the required buffer size
first (or grows the buffer) is refuted: `from_pid` passes a fixed 128-entry
buffer once and never re-queries, so on a process with 129 modules whose
129th is GameAssembly.dll the search misses it (the last examined entry is
uninitialized buffer content) and connect fails with `MissingGaError`. -/
theorem c3_fixed_cap_truncates :
    sysTrunc.modules.length = 129
    ∧ sysTrunc.modules.contains 1128 = true
    ∧ isGameAssembly sysTrunc 1128 = true
    ∧ Game.from_pid sysTrunc = Res.err Error.MissingGaError := by
  refine ⟨by decide, by decide, by decide, by decide⟩

/-- C4: the claim that an implausibly large element count fails with a
list-count decode error before any element read is refuted: with the count
word holding 0xFFFFFFFF, `read_players` proceeds straight into the element
loop (after `Vec::with_capacity` of that count) and the surfaced failure is
the ordinary pointer `ReadError` of element 0 — no `ListCountInvalid` or
`ListTooLarge` exists in the error type. -/
theorem c4_no_count_sanity_bound :
    procHuge.readU32 (add32 0x7000 0xC) = 4294967295
    ∧ Game.read_players procHuge 0x6000 = Res.err (Error.ReadError 0 0 "pointer") := by
  refine ⟨by decide, by decide⟩

/-- C5 counterexample: the claim that the read error names which of the
three hops failed is refuted: a failure of the first hop (class pointer,
address 0x028E98F4) and a failure of the second hop (statics block, address
0x105C) surface the very same error with the one static label pointer. -/
theorem c5_counterexample_same_label_for_different_hops :
    procHop1.readOk 0x028E98F4 4 = false
    ∧ procHop2.readOk 0x028E98F4 4 = true
    ∧ procHop2.readOk 0x105C 4 = false
    ∧ Game.get_instance_addr procHop1 gameW ClientState
        = Res.err (Error.ReadError 0 0 "pointer")
    ∧ Game.get_instance_addr procHop2 gameW ClientState
        = Res.err (Error.ReadError 0 0 "pointer") := by
  refine ⟨by decide, by decide, by decide, by decide, by decide⟩

/-- C5 amended: the first failing hop aborts the chain and surfaces a
`ReadError` carrying the OS code and copied byte count, but its field label
is always the one string pointer, whichever of the three hops failed. -/
theorem c5_amended_first_failing_hop_aborts :
  ∀ (p : ForeignProc) (g : Game) (T : InstancedClass),
    (p.readOk (add32 g.ga_addr T.CLASS_OFFSET) 4 = false →
       Game.get_instance_addr p g T =
         Res.err (Error.ReadError p.lastError
           (p.bytesCopied (add32 g.ga_addr T.CLASS_OFFSET) 4) "pointer"))
    ∧ (∀ ca, Game.read_game_usize p (add32 g.ga_addr T.CLASS_OFFSET) = Res.ok ca →
        p.readOk (add32 ca T.STATICS_OFFSET) 4 = false →
        Game.get_instance_addr p g T =
          Res.err (Error.ReadError p.lastError
            (p.bytesCopied (add32 ca T.STATICS_OFFSET) 4) "pointer"))
    ∧ (∀ ca sa, Game.read_game_usize p (add32 g.ga_addr T.CLASS_OFFSET) = Res.ok ca →
        Game.read_game_usize p (add32 ca T.STATICS_OFFSET) = Res.ok sa →
        p.readOk (add32 sa T.INSTANCE_OFFSET) 4 = false →
        Game.get_instance_addr p g T =
          Res.err (Error.ReadError p.lastError
            (p.bytesCopied (add32 sa T.INSTANCE_OFFSET) 4) "pointer")) := by
  intro p g T
  refine ⟨?_, ?_, ?_⟩
  · intro h
    simp [Game.get_instance_addr, Game.read_game_usize, h, Res.bind]
  · intro ca h0 h
    simp only [Game.get_instance_addr, h0, Res.bind]
    simp [Game.read_game_usize, h, Res.bind]
  · intro ca sa h0 h1 h
    simp only [Game.get_instance_addr, h0, h1, Res.bind]
    simp [Game.read_game_usize, h, Res.bind]

/-- C5 amended witness: a first-hop failure and a second-hop failure each
abort the chain with the pointer-labelled read error. -/
theorem c5_amended_first_failing_hop_aborts_witness :
    Game.get_instance_addr procHop1 gameW ClientState
      = Res.err (Error.ReadError 0 0 "pointer")
    ∧ Game.get_instance_addr procHop2 gameW ClientState
      = Res.err (Error.ReadError 0 0 "pointer") := by
  refine ⟨?_, ?_⟩
  · exact (c5_amended_first_failing_hop_aborts procHop1 gameW ClientState).1 (by decide)
  · exact (c5_amended_first_failing_hop_aborts procHop2 gameW ClientState).2.1
      0x1000 (by decide) (by decide)

/-- C6 counterexample: the claim that every foreign read fails whenever the
copied byte count falls short is refuted: `read_game_usize` checks only the
primitive's success flag, so a call that reports success with zero bytes
copied is accepted and the uninitialized buffer (0xFF bytes) is interpreted
as the value 0xFFFFFFFF. -/
theorem c6_counterexample_partial_read_accepted :
    procPartial.readOk 100 4 = true
    ∧ procPartial.bytesCopied 100 4 = 0
    ∧ Game.read_game_usize procPartial 100 = Res.ok 4294967295 := by
  refine ⟨by decide, by decide, by decide⟩

/-- C6 amended: `read_player` and `read_string` do fail whenever the copied
byte count differs from the requested one, and the reported error carries
both the OS error code and the copied count; the scalar reads (pointer,
internal state, meeting state, task overview, player-list size) check only
the success flag. -/
theorem c6_amended_partial_read_checks :
  ∀ (p : ForeignProc) (addr : Nat),
    (¬ p.bytesCopied (add32 addr 8) 44 = 44 →
       Game.read_player p addr =
         Res.err (Error.ReadError p.lastError (p.bytesCopied (add32 addr 8) 44) "raw player"))
    ∧ (∀ len, Game.read_game_usize p (add32 addr 8) = Res.ok len →
        ¬ p.bytesCopied (add32 addr 12) (len * 2) / 2 = len →
        Game.read_string p addr =
          Res.err (Error.ReadError p.lastError
            (p.bytesCopied (add32 addr 12) (len * 2)) "string")) := by
  intro p addr
  refine ⟨?_, ?_⟩
  · intro h
    simp [Game.read_player, h]
  · intro len h0 h
    simp only [Game.read_string, h0, Res.bind]
    simp [h]

/-- C6 amended witness: against the always-short process, the raw player
read and the string payload read both fail, reporting code 0 and the copied
count 0. -/
theorem c6_amended_partial_read_checks_witness :
    Game.read_player procPartial 5 = Res.err (Error.ReadError 0 0 "raw player")
    ∧ Game.read_string procPartial 5 = Res.err (Error.ReadError 0 0 "string") := by
  refine ⟨?_, ?_⟩
  · exact (c6_amended_partial_read_checks procPartial 5).1 (by decide)
  · exact (c6_amended_partial_read_checks procPartial 5).2 4294967295 (by decide) (by decide)

/-- C7: in the Started phase a meeting-screen instance address of zero is a
valid resolved result, not an error: the snapshot is InGame with meeting
Proceeding (independently of any read at the meeting discriminant address),
and only for a nonzero address is the poll outcome the discriminant read at
that object plus 0x84. -/
theorem c7_zero_meeting_sentinel :
  ∀ (p : ForeignProc) (g : Game) (csa pm tt tc : Nat) (ps : List Player) (msa : Nat),
    Game.get_instance_addr p g ClientState = Res.ok csa →
    Game.read_internal_state p csa = Res.ok InternalState.Started →
    Game.get_instance_addr p g PlayerManager = Res.ok pm →
    Game.read_task_overview p pm = Res.ok (tt, tc) →
    Game.read_players p pm = Res.ok ps →
    Game.get_instance_addr p g MeetingScreen = Res.ok msa →
    ((msa = 0 → Game.state p g = Res.ok (State.InGame MeetingState.Proceeding ps tc tt))
     ∧ (¬ msa = 0 →
         Game.state p g =
           Res.bind (Game.read_meeting_progress p msa)
             (fun m => Res.ok (State.InGame m ps tc tt)))) := by
  intro p g csa pm tt tc ps msa h0 h1 h2 h3 h4 h5
  refine ⟨?_, ?_⟩
  · intro hz
    simp [Game.state, h0, h1, h2, h3, h4, h5, hz, Res.bind]
  · intro hnz
    simp [Game.state, h0, h1, h2, h3, h4, h5, hnz, Res.bind]

/-- C7 witness: with the meeting chain resolving to zero the poll returns
Proceeding even though reads at the would-be discriminant address 0x84 fail,
and with the chain resolving to 0xB000 and discriminant 0 it returns
Discussion. -/
theorem c7_zero_meeting_sentinel_witness :
    procStarted.readOk 132 4 = false
    ∧ Game.state procStarted gameW
        = Res.ok (State.InGame MeetingState.Proceeding [] 3 10)
    ∧ Game.state procMeetingDisc gameW
        = Res.ok (State.InGame MeetingState.Discussion [] 3 10) := by
  refine ⟨by decide, ?_, ?_⟩
  · exact (c7_zero_meeting_sentinel procStarted gameW 0x3000 0x6000 10 3 [] 0
      (by decide) (by decide) (by decide) (by decide) (by decide) (by decide)).1 (by decide)
  · have h := (c7_zero_meeting_sentinel procMeetingDisc gameW 0x3000 0x6000 10 3 [] 0xB000
      (by decide) (by decide) (by decide) (by decide) (by decide) (by decide)).2 (by decide)
    rw [h]
    decide

/-- C8 counterexample: the claim that a zero-length string yields the empty
string without issuing the payload read is refuted: the payload read call is
still issued with zero bytes requested, and when that call reports failure
`read_string` returns its read error instead of the empty string. -/
theorem c8_counterexample_zero_length_payload_read_issued :
    Game.read_game_usize procZeroStr (add32 0 8) = Res.ok 0
    ∧ procZeroStr.readOk (add32 0 12) 0 = false
    ∧ Game.read_string procZeroStr 0 = Res.err (Error.ReadError 0 0 "string") := by
  refine ⟨by decide, by decide, by decide⟩

/-- C8 amended: on a zero length prefix the payload read is still issued,
with zero bytes requested; whenever that call reports success with zero
bytes copied, `read_string` returns the empty string, so no payload bytes
need to exist. -/
theorem c8_amended_zero_length_empty_string :
  ∀ (p : ForeignProc) (address : Nat),
    Game.read_game_usize p (add32 address 8) = Res.ok 0 →
    p.readOk (add32 address 12) 0 = true →
    p.bytesCopied (add32 address 12) 0 = 0 →
    Game.read_string p address = Res.ok "" := by
  intro p address h0 h1 h2
  simp only [Game.read_string, h0, Res.bind]
  simp [h1, h2, ForeignProc.readBytes, utf16Decode, utf16DecodeAux]

/-- C8 amended witness: on the all-zero memory with fully succeeding reads,
the string at address 0 decodes as the empty string. -/
theorem c8_amended_zero_length_empty_string_witness :
    Game.read_string procMenu 0 = Res.ok "" :=
  c8_amended_zero_length_empty_string procMenu 0 (by decide) (by decide) (by decide)

/-- C9: the poll is deterministic: against the same foreign memory image,
two sessions whose handle and module base agree produce equal snapshots, so
the result is a function of the session fields and the memory only. -/
theorem c9_poll_deterministic :
  ∀ (p : ForeignProc) (g1 g2 : Game),
    g1.handle = g2.handle → g1.ga_addr = g2.ga_addr →
    Game.state p g1 = Game.state p g2 := by
  intro p g1 g2 h1 h2
  have hg : g1 = g2 := by
    cases g1
    cases g2
    simp_all
  rw [hg]

/-- C9 witness: the two equal-valued sessions yield the same snapshot
against the Started memory. -/
theorem c9_poll_deterministic_witness :
    Game.state procStarted gameW = Game.state procStarted gameW2 :=
  c9_poll_deterministic procStarted gameW gameW2 (by decide) (by decide)

/-- C10: a module whose base name fails UTF-16 decoding is a non-match and
the search continues with the remaining modules, and `from_pid` only ever
fails as `EnumModuleError` or `MissingGaError` — an undecodable module name
never surfaces as a connect error. -/
theorem c10_undecodable_module_skipped :
    (∀ (sys : WinSystem) (hm : Nat) (hms : List Nat),
       utf16Decode (sys.baseName hm) = none →
       List.find? (isGameAssembly sys) (hm :: hms) = List.find? (isGameAssembly sys) hms)
    ∧ (∀ (sys : WinSystem) (e : Error),
        Game.from_pid sys = Res.err e →
        e = Error.EnumModuleError sys.lastError ∨ e = Error.MissingGaError) := by
  refine ⟨?_, ?_⟩
  · intro sys hm hms h
    have hb : isGameAssembly sys hm = false := by
      simp [isGameAssembly, h]
    simp [List.find?, hb]
  · intro sys e h
    unfold Game.from_pid at h
    by_cases he : sys.enumOk = false
    · rw [if_pos he] at h
      injection h with h
      exact Or.inl h.symm
    · rw [if_neg he] at h
      cases hf : List.find? (isGameAssembly sys) (examinedModules sys) with
      | none =>
        rw [hf] at h
        injection h with h
        exact Or.inr h.symm
      | some hm =>
        rw [hf] at h
        exact absurd h (by simp)

/-- C10 witness: the undecodable module 1 of `sysSkip` is skipped and the
search continues with module 2; the connect failure on `sysNoGa` is one of
the two enumeration-level errors. -/
theorem c10_undecodable_module_skipped_witness :
    List.find? (isGameAssembly sysSkip) (1 :: [2]) = List.find? (isGameAssembly sysSkip) [2]
    ∧ (Error.MissingGaError = Error.EnumModuleError sysNoGa.lastError
       ∨ Error.MissingGaError = Error.MissingGaError) := by
  refine ⟨?_, ?_⟩
  · exact c10_undecodable_module_skipped.1 sysSkip 1 [2] (by decide)
  · exact c10_undecodable_module_skipped.2 sysNoGa Error.MissingGaError (by decide)
